import Mathlib

/-!
Game_Guesser: verification of the question-evaluation / candidate-filtering core.

Shallow embedding of the Go backend (`backend` package: `game_logic.go`,
`questions.go`, with its types) into Lean 4, followed by theorems about the
session-state transitions `ApplyQuestion` and `ApplyGuess`, the evaluator
`EvaluateQuestion`, and session creation `NewSession`.

Modelling conventions:
* Go `int` is modelled as `Int` (values involved — years, guess budgets,
  identifiers — stay far from the 64-bit boundaries in every statement below;
  the one place where the 64-bit range matters semantically, `strconv.Atoi`'s
  range error, is modelled explicitly inside `goAtoi`).
* Go's `map[int]Game` is modelled as an association list with last-write-wins
  insertion; lookups are `Option`-valued, as is Go's `value, ok := m[k]` form.
* `rand.Intn(n)` is modelled by an explicit index parameter; `rand.Intn`
  panics for `n ≤ 0`, and panics are modelled as `none`.
* String helpers (`strings.ToLower`, `strings.TrimSpace`, `strings.EqualFold`)
  are modelled on their ASCII behaviour, which covers the catalog vocabulary.
-/

namespace GameGuesser

/-- The `Game` record of the backend types file. -/
structure Game where
  ID : Int := 0
  Name : String := ""
  Year : Int := 0
  Platforms : List String := []
  Genres : List String := []
  MainGenre : String := ""
  Perspective : String := ""
  WorldType : String := ""
  Camera : String := ""
  Theme : String := ""
  Tone : List String := []
  Difficulty : String := ""
  Replayability : String := ""
  DeveloperBucket : String := ""
  DeveloperRegion : String := ""
  Franchise : String := ""
  FranchiseEntry : String := ""
  ESRB : String := ""
  AgeRating : String := ""
  ViolenceLevel : String := ""
  VisualStyle : List String := []
  CombatStyle : List String := []
  StructureFeatures : List String := []
  Mood : List String := []
  Setting : List String := []
  Monetization : List String := []
  Multiplayer : Bool := false
  CoOp : Bool := false
  OnlineOnly : Bool := false
  MultiplayerMode : String := ""
  ScoreBucket : String := ""
deriving DecidableEq, Inhabited

/-- The declarative `QuestionTemplate`: `field` + `type` strings. -/
structure QuestionTemplate where
  ID : String := ""
  Category : String := ""
  Label : String := ""
  Field : String := ""
  /-- the Go field is named `Type`, a reserved word in Lean -/
  Typ : String := ""
  ValueSource : String := ""
  AllowedValues : List String := []
deriving DecidableEq, Inhabited

/-- A `QuestionRequest`: template id plus free-form value string. -/
structure QuestionRequest where
  TemplateID : String := ""
  Value : String := ""
deriving DecidableEq, Inhabited

/-- One history entry (`AskedQuestion` in `game_logic.go`). -/
structure AskedQuestion where
  TemplateID : String := ""
  Label : String := ""
  Value : String := ""
  Answer : Bool := false
deriving DecidableEq, Inhabited

/-- Per-session state (`SessionState` in `game_logic.go`). -/
structure SessionState where
  SecretID : Int := 0
  RemainingIDs : List Int := []
  Asked : List AskedQuestion := []
  GuessesLeft : Int := 0
  Status : String := ""
  RevealGameName : String := ""
deriving DecidableEq, Inhabited

/-- A `GuessRequest`; `GuessID = 0` is the JSON `omitempty` sentinel for
"no identifier supplied". -/
structure GuessRequest where
  GuessID : Int := 0
  GuessName : String := ""
deriving DecidableEq, Inhabited

/-! ## String helpers (models of the `strings`/`strconv` standard library) -/

/-- Model of `strings.ToLower`, restricted to its ASCII behaviour, acting on
the character list of the string. -/
def goToLower (s : String) : String := ⟨s.data.map Char.toLower⟩

/-- ASCII whitespace as recognised by `unicode.IsSpace`: space, `\t`, `\n`,
`\v`, `\f`, `\r`. -/
def goIsSpace (c : Char) : Bool := c.toNat = 32 ∨ (9 ≤ c.toNat ∧ c.toNat ≤ 13)

/-- Model of `strings.TrimSpace`, restricted to its ASCII behaviour: drop
whitespace from both ends. -/
def goTrimSpace (s : String) : String :=
  ⟨((s.data.dropWhile goIsSpace).reverse.dropWhile goIsSpace).reverse⟩

/-- Model of `strings.EqualFold` on ASCII: equality after lower-casing. -/
def goEqualFold (a b : String) : Bool := goToLower a == goToLower b

/-- Digit run of `strconv.Atoi`: all characters must be decimal digits and
there must be at least one. -/
def parseDigitsAux : List Char → Nat → Option Nat
  | [], acc => some acc
  | c :: rest, acc =>
    if c.isDigit then parseDigitsAux rest (acc * 10 + (c.toNat - 48))
    else none

def parseDigits : List Char → Option Nat
  | [] => none
  | cs => parseDigitsAux cs 0

/-- Model of `strconv.Atoi`: optional sign, then a nonempty digit run; any
other shape is a parse error (`none`). Values outside the 64-bit `int` range
are a range error in Go and also yield `none`. -/
def goAtoi (s : String) : Option Int :=
  let cs := s.data
  let signed : Bool × List Char :=
    match cs with
    | '-' :: rest => (true, rest)
    | '+' :: rest => (false, rest)
    | _ => (false, cs)
  match parseDigits signed.2 with
  | none => none
  | some n =>
    let v : Int := if signed.1 then -(n : Int) else (n : Int)
    if v < -(2 : Int) ^ 63 ∨ v ≥ (2 : Int) ^ 63 then none else some v

/-! ## `questions.go` -/

/-- Case-insensitive membership in a string slice. -/
def stringSliceContains (slice : List String) (value : String) : Bool :=
  let lowerValue := goToLower value
  slice.any (fun item => goToLower item == lowerValue)

/-- Ordered score buckets; unknown labels rank 0. -/
def scoreBucketRank (bucket : String) : Int :=
  match bucket with
  | "60-69" => 1
  | "70-79" => 2
  | "80-89" => 3
  | "90+" => 4
  | _ => 0

/-- Age ratings "3+", "7+", …; unknown labels map to 0. -/
def ageRatingValue (age : String) : Int :=
  match age with
  | "3+" => 3
  | "7+" => 7
  | "12+" => 12
  | "16+" => 16
  | "18+" => 18
  | _ => 0

def getStringField (game : Game) (field : String) : String :=
  match field with
  | "main_genre" => game.MainGenre
  | "theme" => game.Theme
  | "perspective" => game.Perspective
  | "world_type" => game.WorldType
  | "camera" => game.Camera
  | "esrb" => game.ESRB
  | "age_rating" => game.AgeRating
  | "violence_level" => game.ViolenceLevel
  | "developer_bucket" => game.DeveloperBucket
  | "developer_region" => game.DeveloperRegion
  | "franchise" => game.Franchise
  | "franchise_entry" => game.FranchiseEntry
  | "multiplayer_mode" => game.MultiplayerMode
  | "score_bucket" => game.ScoreBucket
  | _ => ""

def getStringSliceField (game : Game) (field : String) : List String :=
  match field with
  | "platforms" => game.Platforms
  | "genres" => game.Genres
  | "tone" => game.Tone
  | "mood" => game.Mood
  | "visual_style" => game.VisualStyle
  | "combat_style" => game.CombatStyle
  | "structure_features" => game.StructureFeatures
  | "setting" => game.Setting
  | "monetization" => game.Monetization
  | _ => []

def getIntField (game : Game) (field : String) : Int :=
  match field with
  | "year" => game.Year
  | _ => 0

def getBoolField (game : Game) (field : String) : Bool :=
  match field with
  | "multiplayer" => game.Multiplayer
  | "co_op" => game.CoOp
  | "online_only" => game.OnlineOnly
  | _ => false

/-- The evaluator `EvaluateQuestion`: true for YES, false for NO. -/
def EvaluateQuestion (game : Game) (tmpl : QuestionTemplate) (value : String) :
    Bool :=
  match tmpl.Typ with
  | "bool" => getBoolField game tmpl.Field
  | "enum_equals" => goEqualFold (getStringField game tmpl.Field) value
  | "enum_contains" => stringSliceContains (getStringSliceField game tmpl.Field) value
  | "range_gt" =>
    match goAtoi value with
    | none => false
    | some target => decide (getIntField game tmpl.Field > target)
  | "range_lt" =>
    match goAtoi value with
    | none => false
    | some target => decide (getIntField game tmpl.Field < target)
  | "enum_ordered_min" =>
    let fieldRank := scoreBucketRank (getStringField game tmpl.Field)
    let valueRank := scoreBucketRank value
    if valueRank = 0 then false else decide (fieldRank ≥ valueRank)
  | "age_at_most" =>
    let gameAge := ageRatingValue game.AgeRating
    let targetAge := ageRatingValue value
    if targetAge = 0 then false
    else if gameAge = 0 then false
    else decide (gameAge ≤ targetAge)
  | "custom_is_sequel" =>
    if game.Franchise = "Standalone / Other" then false
    else if game.FranchiseEntry = "" ∨ game.FranchiseEntry = "Unknown" then false
    else if game.FranchiseEntry = "1" then false
    else true
  | _ => false

/-! ## `game_logic.go` -/

/-- The `GameIndex` wrapping Go's `map[int]Game`, as an association list. -/
structure GameIndex where
  ByID : List (Int × Game) := []
deriving DecidableEq, Inhabited

/-- Go map assignment `m[k] = v`: overwrite an existing binding, else append. -/
def mapInsert (m : List (Int × Game)) (k : Int) (v : Game) :
    List (Int × Game) :=
  if m.any (fun p => p.1 == k) then
    m.map (fun p => if p.1 = k then (k, v) else p)
  else m ++ [(k, v)]

def NewGameIndex (games : List Game) : GameIndex :=
  ⟨games.foldl (fun m g => mapInsert m g.ID g) []⟩

/-- Map lookup `g, ok := idx.ByID[id]`. -/
def FindGameByID (idx : GameIndex) (id : Int) : Option Game :=
  (idx.ByID.find? (fun p => p.1 == id)).map Prod.snd

/-- Session creation. The call `rand.Intn(len(remaining))` is modelled by the
explicit parameter `secretIndex`; `rand.Intn` crashes the process when its
argument is 0 (empty catalog), and that crash is modelled as `none`. For a
nonempty catalog `rand.Intn` always returns an in-range index, so
`secretIndex` out of range is also `none` (unreachable for a real random
draw). -/
def NewSession (games : List Game) (secretIndex : Nat) : Option SessionState :=
  let remaining := games.map (fun g => g.ID)
  match remaining.get? secretIndex with
  | none => none
  | some secretID =>
    some { SecretID := secretID
           RemainingIDs := remaining
           Asked := []
           GuessesLeft := 10
           Status := "playing"
           RevealGameName := "" }

/-- Linear scan returning the first template with the requested id. -/
def findTemplateByID (templates : List QuestionTemplate) (id : String) :
    Option QuestionTemplate :=
  templates.find? (fun t => t.ID == id)

def ApplyQuestion (state : SessionState) (templates : List QuestionTemplate)
    (idx : GameIndex) (req : QuestionRequest) : SessionState :=
  if state.Status ≠ "playing" then state
  else
    match findTemplateByID templates req.TemplateID with
    | none => state
    | some tmpl =>
      match FindGameByID idx state.SecretID with
      | none => state
      | some secretGame =>
        let answer := EvaluateQuestion secretGame tmpl req.Value
        -- filter remaining IDs to those that would give the same answer;
        -- an id missing from the index is skipped (`continue`)
        let newRemaining := state.RemainingIDs.filter (fun id =>
          match FindGameByID idx id with
          | none => false
          | some g => EvaluateQuestion g tmpl req.Value == answer)
        let newAsked : AskedQuestion :=
          { TemplateID := tmpl.ID
            Label := tmpl.Label
            Value := req.Value
            Answer := answer }
        { state with
            RemainingIDs := newRemaining
            Asked := state.Asked ++ [newAsked] }

def NormalizeName (name : String) : String :=
  goToLower (goTrimSpace name)

def ApplyGuess (state : SessionState) (idx : GameIndex) (req : GuessRequest) :
    SessionState :=
  if state.Status ≠ "playing" then state
  else
    match FindGameByID idx state.SecretID with
    | none => state
    | some secret =>
      let isCorrect : Bool :=
        if req.GuessID ≠ 0 then req.GuessID == state.SecretID
        else NormalizeName req.GuessName == NormalizeName secret.Name
      if isCorrect then
        { state with Status := "won", RevealGameName := secret.Name }
      else
        let guessesLeft := state.GuessesLeft - 1
        if guessesLeft ≤ 0 then
          { state with
              GuessesLeft := guessesLeft
              Status := "lost"
              RevealGameName := secret.Name }
        else { state with GuessesLeft := guessesLeft }

/-! ## Concrete fixtures used by witnesses and counterexamples -/

def gAlpha : Game := { ID := 1, Name := "Alpha", Year := 2012, MainGenre := "RPG" }

def gBeta : Game := { ID := 2, Name := "Beta", Year := 2019, MainGenre := "Shooter" }

/-- A game whose identifier collides with the `omitempty` sentinel 0. -/
def gZero : Game := { ID := 0, Name := "Alpha" }

def demoIdx : GameIndex := NewGameIndex [gAlpha, gBeta]

def zeroIdx : GameIndex := NewGameIndex [gZero]

def genreTemplate : QuestionTemplate :=
  { ID := "main_genre", Category := "Genre", Label := "Is the main genre {value}?",
    Field := "main_genre", Typ := "enum_equals" }

def yearTemplate : QuestionTemplate :=
  { ID := "year_gt", Category := "Release Year", Label := "Released after {value}?",
    Field := "year", Typ := "range_gt" }

def demoState : SessionState :=
  { SecretID := 1, RemainingIDs := [1, 2], Asked := [], GuessesLeft := 10,
    Status := "playing", RevealGameName := "" }

def zeroState : SessionState :=
  { SecretID := 0, RemainingIDs := [0], Asked := [], GuessesLeft := 10,
    Status := "playing", RevealGameName := "" }

def wonState : SessionState := { demoState with Status := "won" }

/-! ## Branch characterizations of the two state transitions -/

theorem filter_idem (p : α → Bool) (l : List α) :
    (l.filter p).filter p = l.filter p := by
  induction l with
  | nil => rfl
  | cons a l ih => by_cases h : p a <;> simp [List.filter_cons, h, ih]

theorem applyQuestion_of_not_playing (state : SessionState)
    (templates : List QuestionTemplate) (idx : GameIndex) (req : QuestionRequest)
    (h : state.Status ≠ "playing") :
    ApplyQuestion state templates idx req = state := by
  unfold ApplyQuestion
  simp [h]

theorem applyQuestion_of_no_template (state : SessionState)
    (templates : List QuestionTemplate) (idx : GameIndex) (req : QuestionRequest)
    (h : findTemplateByID templates req.TemplateID = none) :
    ApplyQuestion state templates idx req = state := by
  unfold ApplyQuestion
  simp [h]

theorem applyQuestion_of_no_secret (state : SessionState)
    (templates : List QuestionTemplate) (idx : GameIndex) (req : QuestionRequest)
    (h : FindGameByID idx state.SecretID = none) :
    ApplyQuestion state templates idx req = state := by
  unfold ApplyQuestion
  simp only [h]
  split
  · rfl
  · split <;> rfl

theorem applyQuestion_of_playing (state : SessionState)
    (templates : List QuestionTemplate) (idx : GameIndex) (req : QuestionRequest)
    (tmpl : QuestionTemplate) (sg : Game)
    (hst : state.Status = "playing")
    (htm : findTemplateByID templates req.TemplateID = some tmpl)
    (hsec : FindGameByID idx state.SecretID = some sg) :
    ApplyQuestion state templates idx req =
      { state with
          RemainingIDs := state.RemainingIDs.filter (fun id =>
            match FindGameByID idx id with
            | none => false
            | some g => EvaluateQuestion g tmpl req.Value ==
                EvaluateQuestion sg tmpl req.Value)
          Asked := state.Asked ++
            [{ TemplateID := tmpl.ID, Label := tmpl.Label, Value := req.Value,
               Answer := EvaluateQuestion sg tmpl req.Value }] } := by
  unfold ApplyQuestion
  simp [hst, htm, hsec]

theorem applyQuestion_SecretID_eq (state : SessionState)
    (templates : List QuestionTemplate) (idx : GameIndex) (req : QuestionRequest) :
    (ApplyQuestion state templates idx req).SecretID = state.SecretID := by
  by_cases hst : state.Status = "playing"
  · cases htm : findTemplateByID templates req.TemplateID with
    | none => rw [applyQuestion_of_no_template _ _ _ _ htm]
    | some tmpl =>
      cases hsec : FindGameByID idx state.SecretID with
      | none => rw [applyQuestion_of_no_secret _ _ _ _ hsec]
      | some sg => rw [applyQuestion_of_playing _ _ _ _ _ _ hst htm hsec]
  · rw [applyQuestion_of_not_playing _ _ _ _ hst]

theorem applyQuestion_secret_mem (state : SessionState)
    (templates : List QuestionTemplate) (idx : GameIndex) (req : QuestionRequest)
    (h : state.SecretID ∈ state.RemainingIDs) :
    state.SecretID ∈ (ApplyQuestion state templates idx req).RemainingIDs := by
  by_cases hst : state.Status = "playing"
  · cases htm : findTemplateByID templates req.TemplateID with
    | none => rw [applyQuestion_of_no_template _ _ _ _ htm]; exact h
    | some tmpl =>
      cases hsec : FindGameByID idx state.SecretID with
      | none => rw [applyQuestion_of_no_secret _ _ _ _ hsec]; exact h
      | some sg =>
        rw [applyQuestion_of_playing _ _ _ _ _ _ hst htm hsec]
        exact List.mem_filter.mpr ⟨h, by simp [hsec]⟩
  · rw [applyQuestion_of_not_playing _ _ _ _ hst]; exact h

theorem applyGuess_of_not_playing (state : SessionState) (idx : GameIndex)
    (req : GuessRequest) (h : state.Status ≠ "playing") :
    ApplyGuess state idx req = state := by
  unfold ApplyGuess
  simp [h]

theorem applyGuess_of_no_secret (state : SessionState) (idx : GameIndex)
    (req : GuessRequest) (h : FindGameByID idx state.SecretID = none) :
    ApplyGuess state idx req = state := by
  unfold ApplyGuess
  simp only [h]
  split <;> rfl

theorem applyGuess_correct (state : SessionState) (idx : GameIndex)
    (req : GuessRequest) (secret : Game)
    (hst : state.Status = "playing")
    (hsec : FindGameByID idx state.SecretID = some secret)
    (hc : (if req.GuessID ≠ 0 then req.GuessID == state.SecretID
           else NormalizeName req.GuessName == NormalizeName secret.Name) = true) :
    ApplyGuess state idx req =
      { state with Status := "won", RevealGameName := secret.Name } := by
  unfold ApplyGuess
  simp [hst, hsec, hc]

theorem applyGuess_incorrect (state : SessionState) (idx : GameIndex)
    (req : GuessRequest) (secret : Game)
    (hst : state.Status = "playing")
    (hsec : FindGameByID idx state.SecretID = some secret)
    (hc : (if req.GuessID ≠ 0 then req.GuessID == state.SecretID
           else NormalizeName req.GuessName == NormalizeName secret.Name) = false) :
    ApplyGuess state idx req =
      if state.GuessesLeft - 1 ≤ 0 then
        { state with GuessesLeft := state.GuessesLeft - 1, Status := "lost",
                     RevealGameName := secret.Name }
      else { state with GuessesLeft := state.GuessesLeft - 1 } := by
  unfold ApplyGuess
  simp [hst, hsec, hc]

/-! ## Claim theorems -/

/-- C1: for every session state whose secret id is a member of the candidate
set, after any `ApplyQuestion` call — and hence after any sequence of such
calls — the secret id is still a member of the candidate set. -/
theorem C1_secret_survives_filtering (state : SessionState)
    (templates : List QuestionTemplate) (idx : GameIndex)
    (h : state.SecretID ∈ state.RemainingIDs) :
    (∀ req : QuestionRequest,
      state.SecretID ∈ (ApplyQuestion state templates idx req).RemainingIDs) ∧
    (∀ reqs : List QuestionRequest,
      state.SecretID ∈
        (reqs.foldl (fun s r => ApplyQuestion s templates idx r)
          state).RemainingIDs) := by
  refine ⟨fun req => applyQuestion_secret_mem state templates idx req h,
          fun reqs => ?_⟩
  induction reqs generalizing state with
  | nil => exact h
  | cons r rs ih =>
    have h1 : (ApplyQuestion state templates idx r).SecretID ∈
        (ApplyQuestion state templates idx r).RemainingIDs := by
      rw [applyQuestion_SecretID_eq]
      exact applyQuestion_secret_mem state templates idx r h
    have h2 := ih (ApplyQuestion state templates idx r) h1
    rw [applyQuestion_SecretID_eq] at h2
    exact h2

/-- Witness for C1: in the two-game demo session the secret id 1 is in the
candidate set and survives a concrete two-question sequence. -/
theorem C1_secret_survives_filtering_witness :
    demoState.SecretID ∈
      (([{ TemplateID := "main_genre", Value := "RPG" },
         { TemplateID := "year_gt", Value := "2015" }] : List QuestionRequest).foldl
        (fun s r => ApplyQuestion s [genreTemplate, yearTemplate] demoIdx r)
        demoState).RemainingIDs :=
  (C1_secret_survives_filtering demoState [genreTemplate, yearTemplate] demoIdx
    (by decide)).2 _

/-- C2: for every session state and every `ApplyQuestion` call, the candidate
set of the returned state is a subset of the input candidate set, and in
particular its size never increases. -/
theorem C2_candidates_monotone_narrowing (state : SessionState)
    (templates : List QuestionTemplate) (idx : GameIndex) (req : QuestionRequest) :
    (ApplyQuestion state templates idx req).RemainingIDs ⊆ state.RemainingIDs ∧
    (ApplyQuestion state templates idx req).RemainingIDs.length ≤
      state.RemainingIDs.length := by
  by_cases hst : state.Status = "playing"
  · cases htm : findTemplateByID templates req.TemplateID with
    | none =>
      rw [applyQuestion_of_no_template _ _ _ _ htm]
      exact ⟨fun _ h => h, le_refl _⟩
    | some tmpl =>
      cases hsec : FindGameByID idx state.SecretID with
      | none =>
        rw [applyQuestion_of_no_secret _ _ _ _ hsec]
        exact ⟨fun _ h => h, le_refl _⟩
      | some sg =>
        rw [applyQuestion_of_playing _ _ _ _ _ _ hst htm hsec]
        exact ⟨fun a ha => (List.mem_filter.mp ha).1, List.length_filter_le _ _⟩
  · rw [applyQuestion_of_not_playing _ _ _ _ hst]
    exact ⟨fun _ h => h, le_refl _⟩

/-- C3: contrary to the claim, `NewSession` on an empty catalog does NOT
yield a normal value: the Go code calls `rand.Intn(0)`, which brings the
process down, modelled here as `none` for every possible random draw. -/
theorem C3_newSession_empty_catalog_crashes :
    ∀ secretIndex : Nat, NewSession [] secretIndex = none := by
  intro i
  rfl

/-- C4 counterexample: submitting the empty guess (no id, empty name) to a
playing session does change the state — the claim of "no state change" is
false on the code. -/
theorem C4_counterexample_empty_guess_changes_state :
    ApplyGuess demoState demoIdx { GuessID := 0, GuessName := "" } ≠ demoState ∧
    (ApplyGuess demoState demoIdx { GuessID := 0, GuessName := "" }).GuessesLeft =
      demoState.GuessesLeft - 1 := by
  decide

/-- C4 (amended): the code has no empty-guess special case. An empty guess
(`GuessID = 0`, empty `GuessName`) on a playing session whose secret has a
nonempty normalized name is processed as an ordinary incorrect name guess:
guesses-remaining is decremented by one. -/
theorem C4_empty_guess_is_incorrect_guess (state : SessionState)
    (idx : GameIndex) (req : GuessRequest) (secret : Game)
    (hst : state.Status = "playing")
    (hsec : FindGameByID idx state.SecretID = some secret)
    (hid : req.GuessID = 0) (hname : req.GuessName = "")
    (hsecname : NormalizeName secret.Name ≠ "") :
    (ApplyGuess state idx req).GuessesLeft = state.GuessesLeft - 1 := by
  have hc : (if req.GuessID ≠ 0 then req.GuessID == state.SecretID
             else NormalizeName req.GuessName == NormalizeName secret.Name) = false := by
    rw [if_neg (by simp [hid]), hname]
    have h0 : NormalizeName "" = "" := rfl
    rw [h0]
    exact beq_eq_false_iff_ne.mpr (fun h => hsecname h.symm)
  rw [applyGuess_incorrect _ _ _ _ hst hsec hc]
  by_cases hle : state.GuessesLeft - 1 ≤ 0
  · rw [if_pos hle]
  · rw [if_neg hle]

/-- Witness for C4 (amended): the empty guess on the demo session drops
guesses-remaining from 10 to 9. -/
theorem C4_empty_guess_is_incorrect_guess_witness :
    (ApplyGuess demoState demoIdx { GuessID := 0, GuessName := "" }).GuessesLeft =
      demoState.GuessesLeft - 1 :=
  C4_empty_guess_is_incorrect_guess demoState demoIdx _ gAlpha rfl (by decide)
    rfl rfl (by decide)

/-- C5: once a session's status is won or lost, every further `ApplyQuestion`
or `ApplyGuess` call returns the state completely unchanged. -/
theorem C5_terminal_states_stable (state : SessionState)
    (templates : List QuestionTemplate) (idx : GameIndex)
    (reqQ : QuestionRequest) (reqG : GuessRequest)
    (h : state.Status = "won" ∨ state.Status = "lost") :
    ApplyQuestion state templates idx reqQ = state ∧
    ApplyGuess state idx reqG = state := by
  have hne : state.Status ≠ "playing" := by
    rcases h with h | h <;> simp [h]
  exact ⟨applyQuestion_of_not_playing _ _ _ _ hne,
         applyGuess_of_not_playing _ _ _ hne⟩

/-- Witness for C5: a won session ignores a further question and guess. -/
theorem C5_terminal_states_stable_witness :
    ApplyQuestion wonState [genreTemplate] demoIdx
        { TemplateID := "main_genre", Value := "RPG" } = wonState ∧
    ApplyGuess wonState demoIdx { GuessID := 2, GuessName := "" } = wonState :=
  C5_terminal_states_stable wonState [genreTemplate] demoIdx _ _ (Or.inl rfl)

/-- C6: applying the identical (template id, value) pair twice in a row with
`ApplyQuestion` produces the same candidate set as applying it once (proved
for every input state, in particular for every playing one). -/
theorem C6_applyQuestion_idempotent (state : SessionState)
    (templates : List QuestionTemplate) (idx : GameIndex) (req : QuestionRequest) :
    (ApplyQuestion (ApplyQuestion state templates idx req)
        templates idx req).RemainingIDs =
      (ApplyQuestion state templates idx req).RemainingIDs := by
  by_cases hst : state.Status = "playing"
  · cases htm : findTemplateByID templates req.TemplateID with
    | none => simp only [applyQuestion_of_no_template _ _ _ _ htm]
    | some tmpl =>
      cases hsec : FindGameByID idx state.SecretID with
      | none => simp only [applyQuestion_of_no_secret _ _ _ _ hsec]
      | some sg =>
        rw [applyQuestion_of_playing _ _ _ _ _ _ hst htm hsec]
        rw [applyQuestion_of_playing _ _ _ _ tmpl sg (by simpa using hst) htm
          (by simpa using hsec)]
        simp [filter_idem]
  · simp only [applyQuestion_of_not_playing _ _ _ _ hst]

/-- C7 counterexample: a catalog may contain a game whose identifier is 0,
which collides with the "no identifier supplied" sentinel. Guessing that
secret by its identifier (0) routes to name matching and does not win, so the
claim as stated is false. -/
theorem C7_counterexample_secret_id_zero :
    ({ GuessID := 0, GuessName := "" } : GuessRequest).GuessID =
      zeroState.SecretID ∧
    zeroState.Status = "playing" ∧
    FindGameByID zeroIdx zeroState.SecretID = some gZero ∧
    (ApplyGuess zeroState zeroIdx { GuessID := 0, GuessName := "" }).Status ≠
      "won" := by
  decide

/-- C7 (amended): on a playing session whose secret is in the catalog,
guessing the secret's identifier — provided that identifier is nonzero, 0
being the no-identifier sentinel — or supplying no identifier and a guess
name equal to the secret's name after lower-casing and trimming, always sets
status to won and reveals the secret's name. -/
theorem C7_correct_guess_wins (state : SessionState) (idx : GameIndex)
    (req : GuessRequest) (secret : Game)
    (hst : state.Status = "playing")
    (hsec : FindGameByID idx state.SecretID = some secret)
    (h : (req.GuessID = state.SecretID ∧ req.GuessID ≠ 0) ∨
         (req.GuessID = 0 ∧
           NormalizeName req.GuessName = NormalizeName secret.Name)) :
    (ApplyGuess state idx req).Status = "won" ∧
    (ApplyGuess state idx req).RevealGameName = secret.Name := by
  have hc : (if req.GuessID ≠ 0 then req.GuessID == state.SecretID
             else NormalizeName req.GuessName == NormalizeName secret.Name) = true := by
    rcases h with ⟨heq, hne⟩ | ⟨hz, hname⟩
    · rw [if_pos hne, heq]
      exact beq_self_eq_true _
    · rw [if_neg (by simp [hz]), hname]
      exact beq_self_eq_true _
  rw [applyGuess_correct _ _ _ _ hst hsec hc]
  exact ⟨rfl, rfl⟩

/-- Witness for C7 (amended): guessing the demo secret by its identifier 1
wins and reveals "Alpha". -/
theorem C7_correct_guess_wins_witness :
    (ApplyGuess demoState demoIdx { GuessID := 1, GuessName := "" }).Status =
      "won" ∧
    (ApplyGuess demoState demoIdx
      { GuessID := 1, GuessName := "" }).RevealGameName = gAlpha.Name :=
  C7_correct_guess_wins demoState demoIdx _ gAlpha rfl (by decide)
    (Or.inl ⟨rfl, by decide⟩)

/-- C8: an incorrect guess on a playing session decrements guesses-remaining
by exactly one; the status becomes lost, with the secret's name revealed,
exactly when the decremented counter reaches (at most) zero, and otherwise
the session stays in playing; the budget at session start is 10. -/
theorem C8_incorrect_guess_decrements_and_loses_at_zero (state : SessionState)
    (idx : GameIndex) (req : GuessRequest) (secret : Game)
    (hst : state.Status = "playing")
    (hsec : FindGameByID idx state.SecretID = some secret)
    (hwrong : (req.GuessID ≠ 0 → req.GuessID ≠ state.SecretID) ∧
              (req.GuessID = 0 →
                NormalizeName req.GuessName ≠ NormalizeName secret.Name)) :
    (ApplyGuess state idx req).GuessesLeft = state.GuessesLeft - 1 ∧
    ((ApplyGuess state idx req).Status = "lost" ↔ state.GuessesLeft - 1 ≤ 0) ∧
    (state.GuessesLeft - 1 ≤ 0 →
      (ApplyGuess state idx req).RevealGameName = secret.Name) ∧
    (1 ≤ state.GuessesLeft - 1 → (ApplyGuess state idx req).Status = "playing") ∧
    (∀ (games : List Game) (i : Nat) (st : SessionState),
      NewSession games i = some st → st.GuessesLeft = 10) := by
  have hc : (if req.GuessID ≠ 0 then req.GuessID == state.SecretID
             else NormalizeName req.GuessName == NormalizeName secret.Name) = false := by
    by_cases hz : req.GuessID = 0
    · simp [hz, hwrong.2 hz]
    · simp [hz, hwrong.1 hz]
  rw [applyGuess_incorrect _ _ _ _ hst hsec hc]
  have hbudget : ∀ (games : List Game) (i : Nat) (st : SessionState),
      NewSession games i = some st → st.GuessesLeft = 10 := by
    intro games i st h
    unfold NewSession at h
    dsimp only at h
    split at h
    · exact Option.noConfusion h
    · cases h; rfl
  by_cases hle : state.GuessesLeft - 1 ≤ 0
  · rw [if_pos hle]
    refine ⟨rfl, ⟨fun _ => hle, fun _ => rfl⟩, fun _ => rfl, fun hgt => ?_, hbudget⟩
    exact absurd hle (by omega)
  · rw [if_neg hle]
    refine ⟨rfl, ⟨fun hlost => ?_, fun hle2 => absurd hle2 hle⟩,
            fun hle2 => absurd hle2 hle, fun _ => hst, hbudget⟩
    have h2 : state.Status = "lost" := hlost
    rw [hst] at h2
    exact absurd h2 (by decide)

/-- Witness for C8: the incorrect guess of id 2 on the demo session (secret
id 1, budget 10) decrements guesses-remaining and leaves the session in
playing. -/
theorem C8_incorrect_guess_decrements_and_loses_at_zero_witness :
    (ApplyGuess demoState demoIdx { GuessID := 2, GuessName := "" }).GuessesLeft =
      demoState.GuessesLeft - 1 ∧
    (ApplyGuess demoState demoIdx { GuessID := 2, GuessName := "" }).Status =
      "playing" := by
  have h := C8_incorrect_guess_decrements_and_loses_at_zero demoState demoIdx
    { GuessID := 2, GuessName := "" } gAlpha rfl (by decide) (by decide)
  exact ⟨h.1, h.2.2.2.1 (by decide)⟩

/-- C9: a numeric-comparison question (`range_gt` / `range_lt`) with a value
that does not parse as an integer evaluates to false on every item, and
consequently `ApplyQuestion` with such a value leaves the candidate set
unchanged (given that every candidate id resolves in the index). -/
theorem C9_nonnumeric_range_value_keeps_candidates (state : SessionState)
    (templates : List QuestionTemplate) (idx : GameIndex) (req : QuestionRequest)
    (tmpl : QuestionTemplate) (sg : Game)
    (hst : state.Status = "playing")
    (htm : findTemplateByID templates req.TemplateID = some tmpl)
    (hty : tmpl.Typ = "range_gt" ∨ tmpl.Typ = "range_lt")
    (hval : goAtoi req.Value = none)
    (hsec : FindGameByID idx state.SecretID = some sg)
    (hall : ∀ id ∈ state.RemainingIDs, (FindGameByID idx id).isSome) :
    (∀ g : Game, EvaluateQuestion g tmpl req.Value = false) ∧
    (ApplyQuestion state templates idx req).RemainingIDs =
      state.RemainingIDs := by
  have hev : ∀ g : Game, EvaluateQuestion g tmpl req.Value = false := by
    intro g
    unfold EvaluateQuestion
    rcases hty with h | h <;> rw [h] <;> simp [hval]
  refine ⟨hev, ?_⟩
  rw [applyQuestion_of_playing _ _ _ _ _ _ hst htm hsec]
  show List.filter _ state.RemainingIDs = state.RemainingIDs
  apply List.filter_eq_self.mpr
  intro id hid
  rcases Option.isSome_iff_exists.mp (hall id hid) with ⟨g, hg⟩
  simp [hg, hev]

/-- Witness for C9: asking the year question with the non-numeric value "abc"
leaves the demo candidate set [1, 2] unchanged. -/
theorem C9_nonnumeric_range_value_keeps_candidates_witness :
    (ApplyQuestion demoState [genreTemplate, yearTemplate] demoIdx
      { TemplateID := "year_gt", Value := "abc" }).RemainingIDs =
      demoState.RemainingIDs :=
  (C9_nonnumeric_range_value_keeps_candidates demoState
    [genreTemplate, yearTemplate] demoIdx _ yearTemplate gAlpha rfl (by decide)
    (Or.inl rfl) (by decide) (by decide) (by decide)).2

/-- C10: `ApplyGuess` never modifies the candidate set, the question history,
or the secret id; only guesses-remaining, status and the reveal field may
change. -/
theorem C10_applyGuess_frame (state : SessionState) (idx : GameIndex)
    (req : GuessRequest) :
    (ApplyGuess state idx req).RemainingIDs = state.RemainingIDs ∧
    (ApplyGuess state idx req).Asked = state.Asked ∧
    (ApplyGuess state idx req).SecretID = state.SecretID := by
  by_cases hst : state.Status = "playing"
  · cases hsec : FindGameByID idx state.SecretID with
    | none => rw [applyGuess_of_no_secret _ _ _ hsec]; exact ⟨rfl, rfl, rfl⟩
    | some secret =>
      cases hb : (if req.GuessID ≠ 0 then req.GuessID == state.SecretID
                  else NormalizeName req.GuessName == NormalizeName secret.Name) with
      | false =>
        rw [applyGuess_incorrect _ _ _ _ hst hsec hb]
        split <;> exact ⟨rfl, rfl, rfl⟩
      | true =>
        rw [applyGuess_correct _ _ _ _ hst hsec hb]
        exact ⟨rfl, rfl, rfl⟩
  · rw [applyGuess_of_not_playing _ _ _ hst]; exact ⟨rfl, rfl, rfl⟩

end GameGuesser
